import Mathlib

/-!
Shallow embedding of the text-to-SQL pipeline core of the
langchain-db-connector repository (src/main.js), together with proofs
about its Safety Validator, Query Extractor, Temporal Context Provider
and Execution Orchestrator.

JavaScript strings are modelled as lists of code points (Nat); a Lean
string literal is converted by strCodes.  External collaborators
(schema provider, language model, database executor, toon encoder) are
parameters of the orchestrator, which is instrumented with a ghost
trace recording which collaborators were invoked and with what
arguments.
-/

/-- Code-point list standing for a JavaScript string. -/
abbrev JStr := List Nat

/-- Code points of a Lean string literal (used to write JS string constants). -/
def strCodes (s : String) : JStr := s.data.map Char.toNat

/-- The white-space set of JavaScript String.prototype.trim
(WhiteSpace plus LineTerminator code points of ECMA-262). -/
def isWsCode (n : Nat) : Bool :=
  decide (n = 9 ∨ n = 10 ∨ n = 11 ∨ n = 12 ∨ n = 13 ∨ n = 32 ∨ n = 160 ∨
    n = 5760 ∨ (8192 ≤ n ∧ n ≤ 8202) ∨ n = 8232 ∨ n = 8233 ∨ n = 8239 ∨
    n = 8287 ∨ n = 12288 ∨ n = 65279)

/-- JavaScript String.prototype.trim on code-point lists. -/
def jsTrim (l : JStr) : JStr :=
  ((l.dropWhile isWsCode).reverse.dropWhile isWsCode).reverse

/-- ASCII case mapping of one code point, the fragment of
String.prototype.toLowerCase relevant to the validator (all tokens the
validator compares against are ASCII). -/
def lowerCode (n : Nat) : Nat := if 65 ≤ n ∧ n ≤ 90 then n + 32 else n

/-- JavaScript String.prototype.toLowerCase (ASCII fragment). -/
def jsToLower (l : JStr) : JStr := l.map lowerCode

/-- JavaScript String.prototype.split with separator ";" (code 59):
yields the (possibly empty) segments between semicolons, one more
segment than there are semicolons. -/
def splitSemi : JStr → List JStr
  | [] => [[]]
  | c :: rest =>
    if c = 59 then [] :: splitSemi rest
    else
      match splitSemi rest with
      | [] => [[c]]
      | h :: t => (c :: h) :: t

/-- The forbidden-token alternation of the validator regex in
isSafeSelect of src/main.js:
(insert|update|delete|drop|alter|truncate|create|grant|--|/*). -/
def forbiddenTokens : List JStr :=
  [strCodes "insert", strCodes "update", strCodes "delete", strCodes "drop",
   strCodes "alter", strCodes "truncate", strCodes "create", strCodes "grant",
   strCodes "--", strCodes "/*"]

/-- RegExp.prototype.test of an unanchored literal alternative:
the token occurs somewhere in the text. -/
def tokOccurs (hay tok : JStr) : Bool := decide (tok <:+: hay)

/-- isSafeSelect of src/main.js: lower-case the trimmed statement; it
must start with the token select; if any semicolon occurs the string
must end with one; and no forbidden token may occur anywhere. -/
def isSafeSelect (sql : JStr) : Bool :=
  let sqlString := jsToLower (jsTrim sql)
  if !(strCodes "select").isPrefixOf sqlString then false
  else if sqlString.contains 59 && !([59] : JStr).isSuffixOf sqlString then false
  else !forbiddenTokens.any (fun t => tokOccurs sqlString t)

/-- The intermediate list named queries in extractFinalQuery of
src/main.js: split the response on semicolons, trim each segment and
keep the non-empty ones. -/
def extractQueries (sqlResponse : JStr) : List JStr :=
  ((splitSemi sqlResponse).map jsTrim).filter (fun query => query.length > 0)

/-- extractFinalQuery of src/main.js: the last surviving segment with a
semicolon appended.  When no segment survives, the JavaScript index
expression queries[queries.length - 1] evaluates to undefined and the
string concatenation undefined + ";" yields the literal text
"undefined;", which this embedding reproduces. -/
def extractFinalQuery (sqlResponse : JStr) : JStr :=
  (match (extractQueries sqlResponse).getLast? with
   | some query => query
   | none => strCodes "undefined") ++ [59]

/-- Proleptic Gregorian civil date (year, month, day) of a day count
relative to 1970-01-01, the conversion underlying JavaScript Date
rendering (standard era-based algorithm). -/
def civilFromDays (z0 : Int) : Int × Nat × Nat :=
  let z := z0 + 719468
  let era := Int.fdiv z 146097
  let doe := (z - era * 146097).toNat
  let yoe := (doe - doe / 1460 + doe / 36524 - doe / 146096) / 365
  let doy := doe - (365 * yoe + yoe / 4 - yoe / 100)
  let mp := (5 * doy + 2) / 153
  let d := doy - (153 * mp + 2) / 5 + 1
  let m := if mp < 10 then mp + 3 else mp - 9
  let y := era * 400 + yoe
  (if m ≤ 2 then y + 1 else y, m, d)

/-- Day count relative to 1970-01-01 of a proleptic Gregorian civil
date (inverse of civilFromDays, used to write concrete instants). -/
def daysFromCivil (y : Int) (m d : Nat) : Int :=
  let y2 := if m ≤ 2 then y - 1 else y
  let era := Int.fdiv y2 400
  let yoe := (y2 - era * 400).toNat
  let mp := if 3 ≤ m then m - 3 else m + 9
  let doy := (153 * mp + 2) / 5 + d - 1
  let doe := yoe * 365 + yoe / 4 - yoe / 100 + doy
  era * 146097 + (doe : Int) - 719468

/-- Decimal digit code points of a natural number. -/
def natToDec (n : Nat) : JStr := (Nat.toDigits 10 n).map Char.toNat

/-- Decimal rendering of an integer, as JavaScript Number.prototype.toString. -/
def intToCodes (i : Int) : JStr :=
  if i < 0 then 45 :: natToDec (-i).toNat else natToDec i.toNat

/-- Zero-padded two-digit decimal field. -/
def pad2 (n : Nat) : JStr :=
  let ds := natToDec n
  List.replicate (2 - ds.length) 48 ++ ds

/-- Zero-padded four-digit decimal field. -/
def pad4 (n : Nat) : JStr :=
  let ds := natToDec n
  List.replicate (4 - ds.length) 48 ++ ds

/-- Date.prototype.toISOString of an epoch instant (milliseconds) with
the T replaced by a space and truncated to 19 characters, exactly the
expression istDate.toISOString().replace("T", " ").slice(0, 19) in
getCurrentIST of src/main.js.  Modelled for years 0 to 9999, where
toISOString uses the plain four-digit year form. -/
def isoSlice19 (ms : Int) : JStr :=
  let day := Int.fdiv ms 86400000
  let tod := (ms - day * 86400000).toNat
  let ymd := civilFromDays day
  pad4 ymd.1.toNat ++ [45] ++ pad2 ymd.2.1 ++ [45] ++ pad2 ymd.2.2 ++ [32] ++
    pad2 (tod / 3600000) ++ [58] ++ pad2 (tod / 60000 % 60) ++ [58] ++
    pad2 (tod / 1000 % 60)

/-- getCurrentIST of src/main.js.  The ambient state of the JavaScript
function is made explicit: tzOffsetMin is the value of
now.getTimezoneOffset() (minutes, UTC minus local) and nowMs the value
of now.getTime() (epoch milliseconds).  The source shifts the epoch
value by the host offset, adds the fixed 5.5 hour offset, renders the
shifted instant with toISOString (a UTC rendering), and takes the year
with getFullYear (a host-local rendering, i.e. of the instant shifted
back by the host offset). -/
def getCurrentIST (tzOffsetMin nowMs : Int) : JStr × Int :=
  let nowUtcMs := nowMs + tzOffsetMin * 60000
  let istMs := nowUtcMs + 19800000
  let istString := isoSlice19 istMs ++ strCodes " IST"
  let year := (civilFromDays (Int.fdiv (istMs - tzOffsetMin * 60000) 86400000)).1
  (istString, year)

/-- JSON insignificant white space (space, tab, line feed, carriage return). -/
def isJsonWs (n : Nat) : Bool := n = 32 || n = 9 || n = 10 || n = 13

/-- Scanner behind jsonTopArray: walks the text after an opening
bracket, tracking nesting depth, string mode and escapes, and counting
top-level commas; returns the element count of the array when it
closes properly, and none (a parse error) otherwise. -/
def arrScan : JStr → Nat → Bool → Bool → Nat → Bool → Option (Option Nat)
  | [], _, _, _, _, _ => none
  | c :: rest, depth, inStr, esc, commas, seen =>
    if inStr then
      if esc then arrScan rest depth true false commas seen
      else if c = 92 then arrScan rest depth true true commas seen
      else if c = 34 then arrScan rest depth false false commas seen
      else arrScan rest depth true false commas seen
    else if c = 34 then arrScan rest depth true false commas true
    else if c = 91 ∨ c = 123 then arrScan rest (depth + 1) false false commas true
    else if c = 93 then
      if depth = 0 then
        if rest.all isJsonWs then
          if seen then some (some (commas + 1))
          else if commas = 0 then some (some 0) else none
        else none
      else arrScan rest (depth - 1) false false commas seen
    else if c = 125 then
      if depth = 0 then none else arrScan rest (depth - 1) false false commas seen
    else if c = 44 then
      if depth = 0 then arrScan rest depth false false (commas + 1) seen
      else arrScan rest depth false false commas seen
    else if isJsonWs c then arrScan rest depth false false commas seen
    else arrScan rest depth false false commas (depth = 0 || seen)

/-- Model of the use src/main.js makes of JSON.parse on the executor
result: Array.isArray(JSON.parse(d)) and JSON.parse(d).length.  The
value none models JSON.parse throwing a SyntaxError; some none a parse
result that is not an array; some (some k) an array of k elements.
Non-array text is modelled as a successful non-array parse, the
granularity at which the orchestrator consumes the result. -/
def jsonTopArray (s : JStr) : Option (Option Nat) :=
  match s.dropWhile isJsonWs with
  | [] => none
  | c :: rest => if c = 91 then arrScan rest 0 false false 0 false else some none

/-- Lower-case hexadecimal digit code point. -/
def hexDigit (n : Nat) : Nat := if n < 10 then 48 + n else 87 + n

/-- JSON string escaping of one code point, as JSON.stringify. -/
def jsonEscapeCode (n : Nat) : JStr :=
  if n = 34 then [92, 34]
  else if n = 92 then [92, 92]
  else if n = 8 then [92, 98]
  else if n = 9 then [92, 116]
  else if n = 10 then [92, 110]
  else if n = 12 then [92, 102]
  else if n = 13 then [92, 114]
  else if n < 32 then [92, 117, 48, 48, hexDigit (n / 16), hexDigit (n % 16)]
  else [n]

/-- JSON.stringify applied to a string value, as in
executeQueryAndFrameAnswer of src/main.js (the database answer passed
there is a string). -/
def jsonStringifyStr (l : JStr) : JStr := [34] ++ l.flatMap jsonEscapeCode ++ [34]

/-- The template literal explanationPrompt of executeQueryAndFrameAnswer
in src/main.js, with its exact leading newline and indentation. -/
def explanationPrompt (question result : JStr) : JStr :=
  strCodes "\n      User Question:\n      " ++ question ++
    strCodes "\n\n      SQL Result:\n      " ++ jsonStringifyStr result ++
    strCodes "\n\n      Explain the result clearly and concisely."

/-- External collaborators of the orchestrator, each able to fail with
a thrown error message: loading the schema (setUpDatabaseSource
followed by getTableInfo), the SQL-generation model call (with
arguments context, question, current_date_ist, current_year), the
database executor dbInstance.run, the explanation model call, and the
toon encoder applied when the parsed result has more than one row. -/
structure Collabs where
  schemaLoad : Except JStr JStr
  generate : JStr → JStr → JStr → JStr → Except JStr JStr
  dbRun : JStr → Except JStr JStr
  explain : JStr → Except JStr JStr
  toon : JStr → Except JStr JStr

/-- Ghost instrumentation: the statements submitted to the database
executor and the prompts submitted to the explanation model call
during one orchestrator run. -/
structure Trace where
  dbCalls : List JStr
  explainCalls : List JStr
deriving DecidableEq, Repr

/-- The catch-all answer of main in src/main.js, built from the thrown
error message. -/
def errOccurred (e : JStr) : JStr :=
  strCodes "Error occurred: Unable to process the request. " ++ e

/-- The truthiness-guarded compaction block of main in src/main.js: on
a truthy (non-empty) result string, parse it, and when it is an array
of more than one element replace it with the toon encoding; a parse
error propagates as a thrown exception. -/
def compactStage (c : Collabs) (dbQueryAnswer : JStr) : Except JStr JStr :=
  if dbQueryAnswer = [] then Except.ok dbQueryAnswer
  else
    match jsonTopArray dbQueryAnswer with
    | none => Except.error (strCodes "Unexpected token")
    | some none => Except.ok dbQueryAnswer
    | some (some len) =>
      if len > 1 then c.toon dbQueryAnswer else Except.ok dbQueryAnswer

/-- main of src/main.js over explicit collaborators and clock state,
instrumented with a ghost Trace.  Every try-block failure is caught
and produces the fixed catch answer; the unsafe-statement branch and
the falsy-result branch return their fixed answers directly. -/
def mainRun (tzOffsetMin nowMs : Int) (c : Collabs) (userQuestion : JStr) :
    JStr × Trace :=
  match c.schemaLoad with
  | Except.error e => (errOccurred e, ⟨[], []⟩)
  | Except.ok schema =>
    let ist := getCurrentIST tzOffsetMin nowMs
    match c.generate schema userQuestion ist.1 (intToCodes ist.2) with
    | Except.error e => (errOccurred e, ⟨[], []⟩)
    | Except.ok sqlResponse =>
      let sqlResponseFinal := extractFinalQuery sqlResponse
      if isSafeSelect sqlResponseFinal then
        match c.dbRun sqlResponseFinal with
        | Except.error e => (errOccurred e, ⟨[sqlResponseFinal], []⟩)
        | Except.ok rawAnswer =>
          match compactStage c rawAnswer with
          | Except.error e => (errOccurred e, ⟨[sqlResponseFinal], []⟩)
          | Except.ok dbQueryAnswer =>
            if dbQueryAnswer = [] then
              (strCodes "Error: Failed to execute SQL query on the database and fetch the results.",
               ⟨[sqlResponseFinal], []⟩)
            else
              let p := explanationPrompt
                (userQuestion ++ strCodes "Use INR symbol for denoting the value.")
                dbQueryAnswer
              match c.explain p with
              | Except.error e => (errOccurred e, ⟨[sqlResponseFinal], [p]⟩)
              | Except.ok finalAnswer => (finalAnswer, ⟨[sqlResponseFinal], [p]⟩)
      else
        (strCodes "Error: LLM Generated SQL query is not a safe SELECT statement.",
         ⟨[], []⟩)

/-- Sanity check of the JSON scanner on the shapes the orchestrator
can receive: empty array, flat array, array of objects, bracket inside
a string literal, non-array value, empty text, unterminated array. -/
theorem jsonTopArray_sanity :
    jsonTopArray (strCodes "[]") = some (some 0) ∧
    jsonTopArray (strCodes " [1, 2] ") = some (some 2) ∧
    jsonTopArray (strCodes "[\x7b\x22a\x22:1\x7d,\x7b\x22a\x22:2\x7d]") = some (some 2) ∧
    jsonTopArray (strCodes "[\x7b\x22a\x22:\x22x]y\x22\x7d]") = some (some 1) ∧
    jsonTopArray (strCodes "\x7b\x22a\x22:1\x7d") = some none ∧
    jsonTopArray (strCodes "") = none ∧
    jsonTopArray (strCodes "[1,2") = none := by
  refine ⟨?_, ?_, ?_, ?_, ?_, ?_, ?_⟩ <;> decide

/-- Sanity check of the calendar arithmetic behind the Date model:
epoch day, a leap-year boundary, and a round trip at the end of 2025. -/
theorem calendar_sanity :
    civilFromDays 0 = (1970, 1, 1) ∧
    civilFromDays 19723 = (2024, 1, 1) ∧
    daysFromCivil 2025 12 31 = 20453 ∧
    civilFromDays 20453 = (2025, 12, 31) ∧
    isoSlice19 0 = strCodes "1970-01-01 00:00:00" := by
  refine ⟨?_, ?_, ?_, ?_, ?_⟩ <;> decide

/-- Sanity check of the extractor and validator on the worked examples
of the specification: the accepted read query, the rejected delete,
the multi-statement response whose last statement is the one kept,
and the undefined placeholder produced from degenerate input. -/
theorem pipeline_sanity :
    isSafeSelect (strCodes "SELECT * FROM expenses WHERE id = 15;") = true ∧
    isSafeSelect (strCodes "DELETE FROM expenses WHERE id = 15;") = false ∧
    splitSemi (strCodes "a;b;") = [strCodes "a", strCodes "b", []] ∧
    extractFinalQuery (strCodes "select id from t; drop table t;") =
      strCodes "drop table t;" ∧
    isSafeSelect (strCodes "drop table t;") = false ∧
    isSafeSelect (strCodes "undefined;") = false := by
  refine ⟨?_, ?_, ?_, ?_, ?_, ?_⟩ <;> decide

/-! Supporting lemmas about the string primitives. -/

theorem splitSemi_ne_nil (l : JStr) : splitSemi l ≠ [] := by
  cases l with
  | nil => simp [splitSemi]
  | cons c rest =>
    unfold splitSemi
    by_cases h : c = 59
    · simp [h]
    · rw [if_neg h]
      cases hs : splitSemi rest <;> simp

theorem splitSemi_eq_single (l : JStr) (h : 59 ∉ l) : splitSemi l = [l] := by
  induction l with
  | nil => rfl
  | cons c rest ih =>
    have hc : c ≠ 59 := fun hh => h (hh ▸ List.mem_cons_self c rest)
    have hr : 59 ∉ rest := fun hh => h (List.mem_cons_of_mem _ hh)
    unfold splitSemi
    rw [if_neg hc, ih hr]

theorem not59_of_mem_splitSemi (l : JStr) {q : JStr} (h : q ∈ splitSemi l) : 59 ∉ q := by
  induction l generalizing q with
  | nil =>
    simp only [splitSemi, List.mem_singleton] at h
    subst h; simp
  | cons c rest ih =>
    unfold splitSemi at h
    by_cases hc : c = 59
    · rw [if_pos hc] at h
      rcases List.mem_cons.mp h with h1 | h2
      · subst h1; simp
      · exact ih h2
    · rw [if_neg hc] at h
      cases hs : splitSemi rest with
      | nil => exact absurd hs (splitSemi_ne_nil rest)
      | cons hd tl =>
        rw [hs] at h
        rcases List.mem_cons.mp h with h1 | h2
        · subst h1
          intro hmem
          rcases List.mem_cons.mp hmem with h59 | h59
          · exact hc h59.symm
          · exact ih (q := hd) (by rw [hs]; exact List.mem_cons_self hd tl) h59
        · exact ih (by rw [hs]; exact List.mem_cons_of_mem hd h2)

theorem mem_of_mem_jsTrim {x : Nat} {l : JStr} (h : x ∈ jsTrim l) : x ∈ l := by
  unfold jsTrim at h
  rw [List.mem_reverse] at h
  have h2 := (List.dropWhile_sublist isWsCode).mem h
  rw [List.mem_reverse] at h2
  exact (List.dropWhile_sublist isWsCode).mem h2

theorem jsTrim_eq_nil (l : JStr) (h : ∀ x ∈ l, isWsCode x = true) : jsTrim l = [] := by
  unfold jsTrim
  rw [List.dropWhile_eq_nil_iff.mpr h]
  rfl

theorem isWsCode_lowerCode (n : Nat) : isWsCode (lowerCode n) = isWsCode n := by
  unfold lowerCode
  split
  · next h => simp only [isWsCode, decide_eq_decide]; omega
  · rfl

theorem jsToLower_jsTrim (l : JStr) : jsToLower (jsTrim l) = jsTrim (jsToLower l) := by
  have hfun : (isWsCode ∘ lowerCode) = isWsCode := funext isWsCode_lowerCode
  unfold jsTrim jsToLower
  rw [List.dropWhile_map, hfun, ← List.map_reverse, List.dropWhile_map, hfun,
    ← List.map_reverse]

theorem tok_in_dropWhile (tok l : JStr) (hne : tok ≠ [])
    (hws : ∀ x ∈ tok, isWsCode x = false) (h : tok <:+: l) :
    tok <:+: l.dropWhile isWsCode := by
  induction l with
  | nil =>
    rcases h with ⟨s, t, hst⟩
    have : tok = [] := by
      cases s <;> cases tok <;> simp_all
    exact absurd this hne
  | cons a l ih =>
    by_cases ha : isWsCode a
    · rw [List.dropWhile_cons, if_pos ha]
      apply ih
      rcases h with ⟨s, t, hst⟩
      cases s with
      | nil =>
        cases tok with
        | nil => exact absurd rfl hne
        | cons b tb =>
          simp only [List.nil_append, List.cons_append, List.cons.injEq] at hst
          have hb := hws b (List.mem_cons_self b tb)
          rw [hst.1] at hb
          rw [hb] at ha
          cases ha
      | cons x s2 =>
        simp only [List.cons_append, List.cons.injEq] at hst
        exact ⟨s2, t, hst.2⟩
    · rw [List.dropWhile_cons, if_neg ha]
      exact h

theorem rev_in_rev {tok l : JStr} (h : tok <:+: l) : tok.reverse <:+: l.reverse := by
  rcases h with ⟨s, t, rfl⟩
  exact ⟨t.reverse, s.reverse, by simp⟩

theorem tok_in_jsTrim (tok l : JStr) (hne : tok ≠ [])
    (hws : ∀ x ∈ tok, isWsCode x = false) (h : tok <:+: l) :
    tok <:+: jsTrim l := by
  unfold jsTrim
  have h1 : tok <:+: l.dropWhile isWsCode := tok_in_dropWhile tok l hne hws h
  have h2 : tok.reverse <:+: (l.dropWhile isWsCode).reverse := rev_in_rev h1
  have h3 : tok.reverse <:+: ((l.dropWhile isWsCode).reverse).dropWhile isWsCode := by
    apply tok_in_dropWhile _ _ _ _ h2
    · simpa using hne
    · intro x hx
      exact hws x (List.mem_reverse.mp hx)
  have h4 := rev_in_rev h3
  simpa using h4

/-- Unsafe-verdict branch of the orchestrator: whenever schema load and
generation succeed and the extracted statement fails the validator, the
run ends with the fixed rejection answer and an empty trace. -/
theorem mainRun_unsafe (tz now : Int) (c : Collabs) (q sch raw : JStr)
    (h1 : c.schemaLoad = Except.ok sch)
    (h2 : c.generate sch q (getCurrentIST tz now).1
      (intToCodes (getCurrentIST tz now).2) = Except.ok raw)
    (h3 : isSafeSelect (extractFinalQuery raw) = false) :
    mainRun tz now c q =
      (strCodes "Error: LLM Generated SQL query is not a safe SELECT statement.",
       ⟨[], []⟩) := by
  simp only [mainRun, h1, h2, h3, Bool.false_eq_true, if_false]

/-- Claim C1: if the Safety Validator returns Unsafe for the extracted
CandidateStatement, the orchestrator terminates with the fixed
rejection answer and the Database Executor is never invoked; and every
statement submitted to the Database Executor in any run has received
the Safe verdict. -/
theorem c1_unsafe_rejected_and_db_only_safe (tz now : Int) (c : Collabs)
    (q sch raw : JStr) :
    (∀ s ∈ (mainRun tz now c q).2.dbCalls, isSafeSelect s = true) ∧
    (c.schemaLoad = Except.ok sch →
      c.generate sch q (getCurrentIST tz now).1
        (intToCodes (getCurrentIST tz now).2) = Except.ok raw →
      isSafeSelect (extractFinalQuery raw) = false →
      mainRun tz now c q =
        (strCodes "Error: LLM Generated SQL query is not a safe SELECT statement.",
         ⟨[], []⟩)) := by
  constructor
  · simp only [mainRun]
    split
    · simp
    · split
      · simp
      · split
        · next hsafe =>
          split
          · simp_all
          · split
            · simp_all
            · split
              · simp_all
              · split <;> simp_all
        · simp
  · exact mainRun_unsafe tz now c q sch raw

def cUnsafeDemo : Collabs where
  schemaLoad := Except.ok []
  generate := fun _ _ _ _ => Except.ok (strCodes "DELETE FROM expenses WHERE id = 15;")
  dbRun := fun _ => Except.ok []
  explain := fun _ => Except.ok []
  toon := fun _ => Except.ok []

/-- Witness for C1: the spec's own example statement is rejected and
the run ends with the fixed rejection answer and no executor call. -/
theorem c1_witness :
    isSafeSelect (extractFinalQuery (strCodes "DELETE FROM expenses WHERE id = 15;")) = false ∧
    mainRun 0 0 cUnsafeDemo (strCodes "remove expense 15") =
      (strCodes "Error: LLM Generated SQL query is not a safe SELECT statement.",
       ⟨[], []⟩) :=
  ⟨by decide,
   (c1_unsafe_rejected_and_db_only_safe 0 0 cUnsafeDemo (strCodes "remove expense 15")
      [] (strCodes "DELETE FROM expenses WHERE id = 15;")).2 rfl rfl (by decide)⟩

/-- Claim C2 (code bug evidence): the statement select 1; select 2;
contains a semicolon before its final character, so the claim demands
the Unsafe verdict, yet isSafeSelect accepts it: the code only checks
that a string containing semicolons ends with one, contradicting its
own comment that semicolons are allowed only at the end of the query. -/
theorem c2_interior_semicolon_accepted :
    isSafeSelect (strCodes "select 1; select 2;") = true := by decide

/-- Claim C3: a statement containing any forbidden token (insert,
update, delete, drop, alter, truncate, create, grant, the line-comment
marker or the block-comment opener) anywhere in its text,
case-insensitively, is judged Unsafe, even if it begins with select. -/
theorem c3_forbidden_token_unsafe (s tok : JStr)
    (hmem : tok ∈ forbiddenTokens) (hocc : tok <:+: jsToLower s) :
    isSafeSelect s = false := by
  have hprops : ∀ t ∈ forbiddenTokens, t ≠ [] ∧ ∀ x ∈ t, isWsCode x = false := by
    decide
  obtain ⟨hne, hws⟩ := hprops tok hmem
  have hocc2 : tok <:+: jsToLower (jsTrim s) := by
    rw [jsToLower_jsTrim]
    exact tok_in_jsTrim tok (jsToLower s) hne hws hocc
  simp only [isSafeSelect]
  split
  · rfl
  · split
    · rfl
    · simp only [Bool.not_eq_false']
      exact List.any_eq_true.mpr ⟨tok, hmem, decide_eq_true hocc2⟩

/-- Witness for C3: a statement beginning with select whose only taint
is the word Delete inside a string literal is nevertheless Unsafe. -/
theorem c3_witness :
    strCodes "delete" ∈ forbiddenTokens ∧
    strCodes "delete" <:+: jsToLower (strCodes "SELECT * FROM t WHERE note = 'Delete'") ∧
    isSafeSelect (strCodes "SELECT * FROM t WHERE note = 'Delete'") = false :=
  ⟨by decide, by decide,
   c3_forbidden_token_unsafe (strCodes "SELECT * FROM t WHERE note = 'Delete'")
     (strCodes "delete") (by decide) (by decide)⟩

/-- Counterexample to C4 as stated: on the empty RawModelSQL (which
contains no semicolon) the claim demands the trimmed input plus one
trailing semicolon, but the extractor returns the text "undefined;". -/
theorem c4_counterexample :
    extractFinalQuery (strCodes "") = strCodes "undefined;" ∧
    extractFinalQuery (strCodes "") ≠ jsTrim (strCodes "") ++ [59] := by
  constructor <;> decide

/-- Claim C4 (amended): whenever at least one segment survives the
split-trim-discard phase, the extractor returns the last surviving
segment with exactly one trailing semicolon (so no content of any
earlier segment), and for input without semicolons that segment is the
trimmed input itself. -/
theorem c4_amended_extract_last (s q : JStr)
    (h : (extractQueries s).getLast? = some q) :
    extractFinalQuery s = q ++ [59] ∧
    (extractFinalQuery s).count 59 = 1 ∧
    (59 ∉ s → q = jsTrim s) := by
  have hfq : extractFinalQuery s = q ++ [59] := by
    unfold extractFinalQuery
    rw [h]
  refine ⟨hfq, ?_, ?_⟩
  · have hqmem : q ∈ extractQueries s := by
      rcases List.mem_getLast?_eq_getLast h with ⟨hne, heq⟩
      rw [heq]
      exact List.getLast_mem hne
    have hmap : q ∈ (splitSemi s).map jsTrim := List.mem_of_mem_filter hqmem
    rcases List.mem_map.mp hmap with ⟨r, hr, rfl⟩
    have h59r : 59 ∉ r := not59_of_mem_splitSemi s hr
    have h59q : 59 ∉ jsTrim r := fun hm => h59r (mem_of_mem_jsTrim hm)
    rw [hfq, List.count_append, List.count_eq_zero.mpr h59q]
    simp
  · intro h59
    have hEx : extractQueries s =
        List.filter (fun query => query.length > 0) [jsTrim s] := by
      unfold extractQueries
      rw [splitSemi_eq_single s h59]
      rfl
    rw [hEx] at h
    by_cases hl : jsTrim s = []
    · rw [hl] at h
      simp [List.filter] at h
    · have hpos : 0 < (jsTrim s).length := List.length_pos.mpr hl
      simp [List.filter_cons, hpos] at h
      exact h.symm

/-- Witness for C4 (amended): a padded single-statement response with
no semicolon extracts to its trimmed text plus one semicolon. -/
theorem c4_witness :
    (extractQueries (strCodes "  SELECT 1  ")).getLast? = some (strCodes "SELECT 1") ∧
    59 ∉ strCodes "  SELECT 1  " ∧
    extractFinalQuery (strCodes "  SELECT 1  ") = strCodes "SELECT 1" ++ [59] ∧
    (extractFinalQuery (strCodes "  SELECT 1  ")).count 59 = 1 ∧
    strCodes "SELECT 1" = jsTrim (strCodes "  SELECT 1  ") := by
  have h := c4_amended_extract_last (strCodes "  SELECT 1  ") (strCodes "SELECT 1")
    (by decide)
  exact ⟨by decide, by decide, h.1, h.2.1, h.2.2 (by decide)⟩

/-- Counterexample to C5 as stated: on whitespace-only RawModelSQL the
extractor does not fail with any error; it returns the
CandidateStatement "undefined;". -/
theorem c5_counterexample :
    extractFinalQuery (strCodes "   ") = strCodes "undefined;" := by decide

/-- Claim C5 (amended): for empty or whitespace-only RawModelSQL the
extractor returns the statement "undefined;" instead of failing; that
statement is rejected by the Safety Validator, so the orchestrator
returns the fixed rejection answer and the Database Executor is not
invoked. -/
theorem c5_amended_whitespace_rejected (tz now : Int) (c : Collabs) (q sch raw : JStr)
    (h1 : c.schemaLoad = Except.ok sch)
    (h2 : c.generate sch q (getCurrentIST tz now).1
      (intToCodes (getCurrentIST tz now).2) = Except.ok raw)
    (h3 : ∀ x ∈ raw, isWsCode x = true) :
    extractFinalQuery raw = strCodes "undefined;" ∧
    mainRun tz now c q =
      (strCodes "Error: LLM Generated SQL query is not a safe SELECT statement.",
       ⟨[], []⟩) := by
  have h59 : 59 ∉ raw := fun hm => absurd (h3 59 hm) (by decide)
  have hext : extractFinalQuery raw = strCodes "undefined;" := by
    have hq : extractQueries raw = [] := by
      unfold extractQueries
      rw [splitSemi_eq_single raw h59]
      simp [List.filter, jsTrim_eq_nil raw h3]
    unfold extractFinalQuery
    rw [hq]
    decide
  refine ⟨hext, mainRun_unsafe tz now c q sch raw h1 h2 ?_⟩
  rw [hext]
  decide

def cWsDemo : Collabs where
  schemaLoad := Except.ok []
  generate := fun _ _ _ _ => Except.ok (strCodes "  ")
  dbRun := fun _ => Except.ok []
  explain := fun _ => Except.ok []
  toon := fun _ => Except.ok []

/-- Witness for C5 (amended): a model that produces only blanks leads
to the rejection answer with no executor call. -/
theorem c5_witness :
    (∀ x ∈ strCodes "  ", isWsCode x = true) ∧
    extractFinalQuery (strCodes "  ") = strCodes "undefined;" ∧
    mainRun 0 0 cWsDemo (strCodes "hello") =
      (strCodes "Error: LLM Generated SQL query is not a safe SELECT statement.",
       ⟨[], []⟩) :=
  have h := c5_amended_whitespace_rejected 0 0 cWsDemo (strCodes "hello") []
    (strCodes "  ") rfl rfl (by decide)
  ⟨by decide, h.1, h.2⟩

/-- Claim C10: on any input all of whose split-and-trimmed segments are
empty the extractor returns (without throwing; it is a total function
in this model, as in the source) exactly the string "undefined;". -/
theorem c10_all_empty_returns_undefined (s : JStr)
    (h : extractQueries s = []) :
    extractFinalQuery s = strCodes "undefined;" := by
  unfold extractFinalQuery
  rw [h]
  decide

/-- Witness for C10: input of semicolons and blanks only. -/
theorem c10_witness :
    extractQueries (strCodes " ; ; ") = [] ∧
    extractFinalQuery (strCodes " ; ; ") = strCodes "undefined;" :=
  ⟨by decide, c10_all_empty_returns_undefined (strCodes " ; ; ") (by decide)⟩

def cZeroRows : Collabs where
  schemaLoad := Except.ok []
  generate := fun _ _ _ _ => Except.ok (strCodes "SELECT * FROM expenses;")
  dbRun := fun _ => Except.ok (strCodes "[]")
  explain := fun _ => Except.ok (strCodes "EXPLAINED")
  toon := fun _ => Except.ok []

/-- Counterexample to C6 as stated: a zero-row QueryResult arrives as
the JSON text for the empty array, which is truthy, so the orchestrator
does not short-circuit: it makes the explanation model call and
returns its answer instead of a fixed no-result answer. -/
theorem c6_counterexample :
    (mainRun 0 0 cZeroRows (strCodes "total")).2.explainCalls.length = 1 ∧
    (mainRun 0 0 cZeroRows (strCodes "total")).1 = strCodes "EXPLAINED" := by
  constructor <;> decide

/-- Claim C6 (amended): the short-circuit happens exactly when the
executor result is falsy (the empty string): then the orchestrator
returns the fixed answer about failing to fetch results and makes no
explanation call. -/
theorem c6_amended_falsy_result (tz now : Int) (c : Collabs) (q sch raw : JStr)
    (h1 : c.schemaLoad = Except.ok sch)
    (h2 : c.generate sch q (getCurrentIST tz now).1
      (intToCodes (getCurrentIST tz now).2) = Except.ok raw)
    (h3 : isSafeSelect (extractFinalQuery raw) = true)
    (h4 : c.dbRun (extractFinalQuery raw) = Except.ok []) :
    mainRun tz now c q =
      (strCodes "Error: Failed to execute SQL query on the database and fetch the results.",
       ⟨[extractFinalQuery raw], []⟩) := by
  simp only [mainRun, h1, h2, h3, if_true, h4]
  simp [compactStage]

def cEmptyRun : Collabs where
  schemaLoad := Except.ok []
  generate := fun _ _ _ _ => Except.ok (strCodes "SELECT * FROM expenses;")
  dbRun := fun _ => Except.ok []
  explain := fun _ => Except.ok (strCodes "EXPLAINED")
  toon := fun _ => Except.ok []

/-- Witness for C6 (amended): a falsy executor result produces the
fixed failed-to-fetch answer and no explanation call. -/
theorem c6_witness :
    isSafeSelect (extractFinalQuery (strCodes "SELECT * FROM expenses;")) = true ∧
    mainRun 0 0 cEmptyRun (strCodes "total") =
      (strCodes "Error: Failed to execute SQL query on the database and fetch the results.",
       ⟨[extractFinalQuery (strCodes "SELECT * FROM expenses;")], []⟩) :=
  ⟨by decide,
   c6_amended_falsy_result 0 0 cEmptyRun (strCodes "total") []
     (strCodes "SELECT * FROM expenses;") rfl rfl (by decide) rfl⟩

/-- Claim C7 (code bug evidence): on a host at the IST offset
(getTimezoneOffset -330), at the instant 2025-12-31T23:30:00Z the
nowText renders with year component 2025 while the returned year is
2026, so the two disagree; the year field returned by getFullYear is
host-locally rendered while nowText is rendered by toISOString in UTC
after the code's double offset shift. -/
theorem c7_year_vs_nowtext_bug :
    getCurrentIST (-330) (daysFromCivil 2025 12 31 * 86400000 + 84600000) =
      (strCodes "2025-12-31 23:30:00 IST", 2026) := by decide

/-- Claim C8 (code bug evidence): at one and the same instant (epoch 0)
a host at UTC and a host at the IST offset produce different nowText
values, so the output of getCurrentIST depends on the host timezone
setting, contrary to the function's own comment that it converts local
time to UTC and then adds the fixed IST offset. -/
theorem c8_host_timezone_dependence :
    (getCurrentIST 0 0).1 = strCodes "1970-01-01 05:30:00 IST" ∧
    (getCurrentIST (-330) 0).1 = strCodes "1970-01-01 00:00:00 IST" := by
  constructor <;> decide

/-- The catch-all answer always starts with the text Error. -/
theorem error_prefix_errOccurred (e : JStr) :
    strCodes "Error" <+: errOccurred e := by
  unfold errOccurred
  exact (show strCodes "Error" <+:
      strCodes "Error occurred: Unable to process the request. " by decide).trans
    (List.prefix_append _ e)

/-- Claim C9: the orchestrator never throws; for every collaborator
configuration and question it returns a string, and that string either
begins with the prefix Error (every caught exception, the unsafe
verdict and the falsy executor result all do) or is exactly the answer
the explanation model call returned, in which case exactly one
explanation call was made. -/
theorem c9_error_or_explanation (tz now : Int) (c : Collabs) (q : JStr) :
    strCodes "Error" <+: (mainRun tz now c q).1 ∨
    ∃ p, (mainRun tz now c q).2.explainCalls = [p] ∧
      c.explain p = Except.ok (mainRun tz now c q).1 := by
  cases hs : c.schemaLoad with
  | error e =>
    left
    simp only [mainRun, hs]
    exact error_prefix_errOccurred e
  | ok sch =>
    cases hg : c.generate sch q (getCurrentIST tz now).1
        (intToCodes (getCurrentIST tz now).2) with
    | error e =>
      left
      simp only [mainRun, hs, hg]
      exact error_prefix_errOccurred e
    | ok raw =>
      by_cases hsafe : isSafeSelect (extractFinalQuery raw) = true
      · cases hr : c.dbRun (extractFinalQuery raw) with
        | error e =>
          left
          simp only [mainRun, hs, hg, hsafe, if_true, hr]
          exact error_prefix_errOccurred e
        | ok rawAnswer =>
          cases hc : compactStage c rawAnswer with
          | error e =>
            left
            simp only [mainRun, hs, hg, hsafe, if_true, hr, hc]
            exact error_prefix_errOccurred e
          | ok dbAns =>
            by_cases hemp : dbAns = []
            · left
              simp only [mainRun, hs, hg, hsafe, if_true, hr, hc, if_pos hemp]
              decide
            · cases he : c.explain (explanationPrompt
                  (q ++ strCodes "Use INR symbol for denoting the value.") dbAns) with
              | error e =>
                left
                simp only [mainRun, hs, hg, hsafe, if_true, hr, hc, if_neg hemp, he]
                exact error_prefix_errOccurred e
              | ok finalAnswer =>
                right
                refine ⟨explanationPrompt
                  (q ++ strCodes "Use INR symbol for denoting the value.") dbAns, ?_, ?_⟩
                · simp only [mainRun, hs, hg, hsafe, if_true, hr, hc, if_neg hemp, he]
                · simp only [mainRun, hs, hg, hsafe, if_true, hr, hc, if_neg hemp, he]
      · left
        simp only [mainRun, hs, hg, if_neg hsafe]
        decide
